import Mathlib

/-!
Verification of the decision engine of `lambda_agent.py` (predictive
auto-scaling and self-heal control loop). Real-valued metric samples,
forecasts and thresholds are modelled by the rationals `ℚ`; machine
integers (task counts) by `ℕ`/`ℤ`. Collaborator calls (CloudWatch, ECS,
Slack) are modelled by an environment record that says, for each call,
whether it fails and what it would return.
-/

namespace LambdaAgent

/-! ## Forecaster: `double_exponential_smoothing` (lines 87-103) -/

/-- One iteration of the smoothing loop body (lines 97-100): given the
state `(level, trend)` and the sample `value`, compute the new state.
The new trend is computed from the difference `newLevel - level`, where
`level` is the value saved in `last_level` before the update. -/
def smoothStep (alpha beta : ℚ) (st : ℚ × ℚ) (value : ℚ) : ℚ × ℚ :=
  let newLevel := alpha * value + (1 - alpha) * (st.1 + st.2)
  let newTrend := beta * (newLevel - st.1) + (1 - beta) * st.2
  (newLevel, newTrend)

/-- Holt's linear method as implemented (lines 87-103): empty series
gives `0.0`, a singleton is returned unchanged, otherwise the loop runs
over `series[1:]` starting from `level = series[0]`,
`trend = series[1] - series[0]`, and the result is
`max(0, level + trend * n_preds)`. -/
def double_exponential_smoothing (series : List ℚ) (alpha beta : ℚ) (n_preds : ℕ) : ℚ :=
  match series with
  | [] => 0
  | [x] => x
  | s0 :: s1 :: rest =>
    let st := (s1 :: rest).foldl (smoothStep alpha beta) (s0, s1 - s0)
    max 0 (st.1 + st.2 * (n_preds : ℚ))

/-- The spec's reference recurrence, written as explicit recursion: for
each subsequent sample `v`, `newLevel := alpha*v + (1-alpha)*(level+trend)`
and `newTrend := beta*(newLevel - level) + (1-beta)*trend` with `level`
the previous level, then both are committed. -/
def specLoop (alpha beta : ℚ) : List ℚ → ℚ → ℚ → ℚ × ℚ
  | [], level, trend => (level, trend)
  | v :: vs, level, trend =>
    let newLevel := alpha * v + (1 - alpha) * (level + trend)
    let newTrend := beta * (newLevel - level) + (1 - beta) * trend
    specLoop alpha beta vs newLevel newTrend

/-- The spec's reference forecaster: `0.0` on the empty series, the
sample itself on a one-element series, otherwise the recurrence from
`level := series[0]`, `trend := series[1] - series[0]` over indices
`i ≥ 1`, and finally `max(0, level + trend*stepsAhead)`. -/
def forecast_spec (series : List ℚ) (alpha beta : ℚ) (stepsAhead : ℕ) : ℚ :=
  match series with
  | [] => 0
  | [x] => x
  | s0 :: s1 :: rest =>
    let st := specLoop alpha beta (s1 :: rest) s0 (s1 - s0)
    max 0 (st.1 + st.2 * (stepsAhead : ℚ))

/-! ## Capacity policy (lines 174-193 of `lambda_handler`) -/

/-- The guarded arithmetic of line 178: `math.ceil((pred * desired) /
TARGET_CPU_PER_TASK)`. Python float division by zero raises
`ZeroDivisionError`, modelled by `none`; any other target evaluates. -/
def requiredCompute (pred : ℚ) (desired : ℕ) (target : ℚ) : Option ℤ :=
  if target = 0 then none
  else some ⌈pred * (desired : ℚ) / target⌉

/-- `required` as computed by lines 177-180: `max(1, ceil(...))`, and on
an arithmetic exception the `except` branch falls back to `desired`. -/
def requiredTasks (pred : ℚ) (desired : ℕ) (target : ℚ) : ℤ :=
  match requiredCompute pred desired target with
  | none => (desired : ℤ)
  | some r => max 1 r

/-- The scaling decision taken by lines 182-193. -/
inductive CapacityAction where
  | noOp : CapacityAction
  | scaleUp : ℤ → CapacityAction
  | scaleDown : ℤ → CapacityAction
deriving DecidableEq, Repr

/-- Lines 182-193: scale up to `required` when `required > desired`;
when `required < desired`, scale down only under the conservative guard
`desired - required >= 1 and pred < 0.7 * TARGET_CPU_PER_TASK`;
otherwise no action. -/
def capacityAction (pred : ℚ) (desired : ℕ) (target : ℚ) : CapacityAction :=
  let required := requiredTasks pred desired target
  if (desired : ℤ) < required then .scaleUp required
  else if required < (desired : ℤ) then
    if 1 ≤ (desired : ℤ) - required ∧ pred < (0.7 : ℚ) * target then .scaleDown required
    else .noOp
  else .noOp

/-! ## Health policy: `heal_if_needed` (lines 117-142) -/

/-- The stopped-churn threshold of line 133:
`max(1, math.ceil(0.2 * max(1, len(tasks_all))))`. -/
def healThreshold (total : ℕ) : ℤ :=
  max 1 ⌈(0.2 : ℚ) * ((max 1 total : ℕ) : ℚ)⌉

/-- The trigger condition of line 133: under-provisioned
(`running < desired`) or stopped-task churn at least the threshold. -/
def healCondition (desired running stopped total : ℕ) : Bool :=
  decide (running < desired) || decide (healThreshold total ≤ (stopped : ℤ))

/-! ## Orchestrator: `lambda_handler` (lines 155-196)

Each outbound call is modelled by environment fields: what it would
return, and a flag saying whether the call raises. Calls whose failure
the script catches locally (`fetch_cw_metric`, `scale_service`, the
`update_service` inside `heal_if_needed`, `notify_slack`) turn their
flag into a degraded return value; calls with no local handler
(`describe_service`, `list_tasks`, `describe_tasks`) raise, which the
handler does not catch. -/

/-- A task as seen through `describe_tasks`; only `lastStatus` is read. -/
structure TaskInfo where
  lastStatus : String
deriving DecidableEq, Repr

/-- Line 128-130: count the described tasks whose status is `STOPPED`. -/
def stoppedCount (tasks : List TaskInfo) : ℕ :=
  (tasks.filter (fun t => t.lastStatus = "STOPPED")).length

/-- Outcomes and returns of the collaborator calls made during one
invocation of `lambda_handler`. -/
structure Env where
  /-- `get_metric_statistics` raises (caught inside `fetch_cw_metric`,
  which then returns the empty list). -/
  fetchFails : Bool
  /-- datapoints `fetch_cw_metric` would return, sorted by timestamp. -/
  seriesRaw : List ℚ
  /-- `n_ahead`, computed from configuration on line 168. -/
  nAhead : ℕ
  /-- `TARGET_CPU_PER_TASK` from configuration. -/
  target : ℚ
  /-- the `describe_service` call on line 171 raises (uncaught). -/
  describeFails : Bool
  /-- `desiredCount` of the service snapshot. -/
  desired : ℕ
  /-- `runningCount` of the service snapshot. -/
  running : ℕ
  /-- `update_service(desiredCount=...)` raises (caught inside
  `scale_service`, which returns `False`). -/
  scaleUpdateFails : Bool
  /-- the Slack notification fails (always caught inside
  `notify_slack` and logged; never consulted by any decision). -/
  notifyFails : Bool
  /-- the `describe_service` call inside `heal_if_needed` raises
  (uncaught). -/
  healDescribeFails : Bool
  /-- the `list_tasks` call on line 124 raises (uncaught). -/
  healListFails : Bool
  /-- tasks `list_tasks`/`describe_tasks` would report. -/
  tasks : List TaskInfo
  /-- the `describe_tasks` call on line 127 raises (uncaught; only made
  when the task list is non-empty). -/
  healDescribeTasksFails : Bool
  /-- `update_service(forceNewDeployment=True)` raises (caught on lines
  139-141, returning `False`). -/
  forceDeployFails : Bool
deriving DecidableEq, Repr

/-- Lines 161 + 68-85: the series the handler works with; a CloudWatch
failure is swallowed by `fetch_cw_metric` and surfaces as `[]`. -/
def fetchedSeries (e : Env) : List ℚ :=
  if e.fetchFails then [] else e.seriesRaw

/-- Lines 144-153: `scale_service` catches the update failure and
reports success as a `Bool` (which `lambda_handler` ignores). -/
def scale_service (updateFails : Bool) : Bool :=
  !updateFails

/-- Lines 117-142: `heal_if_needed`. Failures of its `describe_service`,
`list_tasks` and `describe_tasks` calls propagate (`Except.error`);
a failure of the forced redeployment is caught and yields `False`. -/
def heal_if_needed (e : Env) : Except Unit Bool :=
  if e.healDescribeFails then .error ()
  else if e.healListFails then .error ()
  else if !e.tasks.isEmpty && e.healDescribeTasksFails then .error ()
  else if healCondition e.desired e.running (stoppedCount e.tasks) e.tasks.length then
    if e.forceDeployFails then .ok false else .ok true
  else .ok false

/-- The value `lambda_handler` returns: the `no_data` dictionary of line
165, or the `ok` dictionary of line 196. -/
inductive HandlerResult where
  | noData : HandlerResult
  | ok : ℚ → ℕ → ℤ → Bool → HandlerResult
deriving DecidableEq, Repr

/-- Trace entries recording which steps of the cycle executed. -/
inductive Step where
  | fetchMetrics : Step
  | notifyStep : Step
  | forecastStep : Step
  | describeStep : Step
  | scaleCall : ℤ → Step
  | healCheck : Step
deriving DecidableEq, Repr

/-- Lines 155-196: one invocation. Returns the handler's outcome (a
structured result, or `Except.error` for an uncaught exception) together
with the trace of executed steps. -/
def lambda_handler (e : Env) : Except Unit HandlerResult × List Step :=
  let series := fetchedSeries e
  if series.isEmpty then
    (.ok .noData, [.fetchMetrics, .notifyStep])
  else
    let pred := double_exponential_smoothing series (0.5 : ℚ) (0.3 : ℚ) e.nAhead
    if e.describeFails then (.error (), [.fetchMetrics, .forecastStep, .describeStep])
    else
      let required := requiredTasks pred e.desired e.target
      let scaleSteps : List Step :=
        match capacityAction pred e.desired e.target with
        | .noOp => []
        | .scaleUp n => let _ok := scale_service e.scaleUpdateFails; [.scaleCall n]
        | .scaleDown n => let _ok := scale_service e.scaleUpdateFails; [.scaleCall n]
      let base : List Step := [.fetchMetrics, .forecastStep, .describeStep] ++ scaleSteps
      match heal_if_needed e with
      | .error _ => (.error (), base ++ [.healCheck])
      | .ok healed => (.ok (.ok pred e.desired required healed), base ++ [.healCheck])

/-! ## Theorems -/

/-- The spec recurrence, run as explicit recursion, agrees with the
implementation's fold over the tail of the series. -/
theorem specLoop_eq_foldl (alpha beta : ℚ) (l : List ℚ) :
    ∀ level trend : ℚ,
      specLoop alpha beta l level trend = l.foldl (smoothStep alpha beta) (level, trend) := by
  induction l with
  | nil => intro level trend; rfl
  | cons v vs ih =>
    intro level trend
    simp only [specLoop, List.foldl_cons, smoothStep]
    exact ih _ _

/-- Claim C1: the forecaster equals the spec's reference definition on
every input: `0.0` on the empty series, the sample itself on a
one-element series, and otherwise the Holt recurrence initialised with
`level := series[0]`, `trend := series[1] - series[0]`, whose trend
update uses the previous level, finished by
`max(0, level + trend*stepsAhead)`. -/
theorem forecaster_matches_spec (series : List ℚ) (alpha beta : ℚ) (stepsAhead : ℕ) :
    double_exponential_smoothing series alpha beta stepsAhead =
      forecast_spec series alpha beta stepsAhead := by
  match series with
  | [] => rfl
  | [x] => rfl
  | s0 :: s1 :: rest =>
    simp only [double_exponential_smoothing, forecast_spec,
      specLoop_eq_foldl alpha beta (s1 :: rest) s0 (s1 - s0)]

/-- Claim C8: on a series of non-negative samples, with smoothing
constants in `(0,1)` and a positive horizon, the forecast is
non-negative. -/
theorem forecast_nonneg (series : List ℚ) (alpha beta : ℚ) (n_preds : ℕ)
    (hs : ∀ x ∈ series, 0 ≤ x)
    (ha1 : 0 < alpha) (ha2 : alpha < 1) (hb1 : 0 < beta) (hb2 : beta < 1)
    (hn : 1 ≤ n_preds) :
    0 ≤ double_exponential_smoothing series alpha beta n_preds := by
  match series with
  | [] => simp [double_exponential_smoothing]
  | [x] =>
    simpa [double_exponential_smoothing] using hs x (by simp)
  | s0 :: s1 :: rest =>
    simp only [double_exponential_smoothing]
    exact le_max_left 0 _

/-- Witness for C8 at the series `[3, 1, 4]` with the default
constants. -/
theorem forecast_nonneg_witness :
    0 ≤ double_exponential_smoothing [3, 1, 4] (0.5 : ℚ) (0.3 : ℚ) 1 :=
  forecast_nonneg [3, 1, 4] (0.5 : ℚ) (0.3 : ℚ) 1
    (by intro x hx; fin_cases hx <;> norm_num)
    (by norm_num) (by norm_num) (by norm_num) (by norm_num) (by norm_num)

/-- Claim C9: with `alpha = 0.5`, `beta = 0.3`, `stepsAhead = 1`, the
forecast for `[1,2,3,4,5]` is within `0.5` of `6.0` (it is exactly `6`),
and the forecast for `[10,12,14,16,18]` strictly exceeds the last
sample `18` (it is `20`). -/
theorem forecast_concrete_values :
    |double_exponential_smoothing [1, 2, 3, 4, 5] (0.5 : ℚ) (0.3 : ℚ) 1 - 6| ≤ (0.5 : ℚ) ∧
      18 < double_exponential_smoothing [10, 12, 14, 16, 18] (0.5 : ℚ) (0.3 : ℚ) 1 := by
  constructor <;> norm_num [double_exponential_smoothing, smoothStep]

/-- Claim C2: with a positive per-unit target, `required` is exactly
`max(1, ceil(forecast * desiredCount / targetPerUnit))`, hence at least
`1` (the service is never scaled to zero), and whenever it exceeds the
desired count the action is an immediate scale-up to `required`. -/
theorem capacity_scale_up (pred : ℚ) (desired : ℕ) (target : ℚ)
    (hd : 1 ≤ desired) (ht : 0 < target) :
    requiredTasks pred desired target = max 1 ⌈pred * (desired : ℚ) / target⌉ ∧
      1 ≤ requiredTasks pred desired target ∧
      ((desired : ℤ) < requiredTasks pred desired target →
        capacityAction pred desired target =
          CapacityAction.scaleUp (requiredTasks pred desired target)) := by
  have hne : target ≠ 0 := ne_of_gt ht
  have h1 : requiredTasks pred desired target = max 1 ⌈pred * (desired : ℚ) / target⌉ := by
    simp [requiredTasks, requiredCompute, hne]
  refine ⟨h1, ?_, ?_⟩
  · rw [h1]; exact le_max_left 1 _
  · intro hlt
    simp only [capacityAction]
    rw [if_pos hlt]

/-- Witness for C2 at the spec's example: forecast 80, desired 2,
target 60 give `required = ceil(160/60) = 3` and a scale-up to 3. -/
theorem capacity_scale_up_witness :
    requiredTasks 80 2 60 = 3 ∧ capacityAction 80 2 60 = CapacityAction.scaleUp 3 := by
  have h := capacity_scale_up 80 2 60 (by norm_num) (by norm_num)
  have hr : requiredTasks (80 : ℚ) 2 (60 : ℚ) = 3 := by
    rw [h.1]; norm_num; rw [Int.ceil_eq_iff] <;> norm_num
  refine ⟨hr, ?_⟩
  have h2 := h.2.2 (by rw [hr]; norm_num)
  rwa [hr] at h2

/-- Claim C3: with a positive target and `required < desired`, the
policy scales down to `required` exactly when both
`desired - required ≥ 1` and `forecast < 0.7 * targetPerUnit` hold, and
does nothing otherwise; `required = desired` gives no action. -/
theorem capacity_scale_down (pred : ℚ) (desired : ℕ) (target : ℚ)
    (hd : 1 ≤ desired) (ht : 0 < target) :
    (requiredTasks pred desired target < (desired : ℤ) →
      (capacityAction pred desired target =
          CapacityAction.scaleDown (requiredTasks pred desired target) ↔
        1 ≤ (desired : ℤ) - requiredTasks pred desired target ∧
          pred < (0.7 : ℚ) * target) ∧
      (¬(1 ≤ (desired : ℤ) - requiredTasks pred desired target ∧
          pred < (0.7 : ℚ) * target) →
        capacityAction pred desired target = CapacityAction.noOp)) ∧
    (requiredTasks pred desired target = (desired : ℤ) →
      capacityAction pred desired target = CapacityAction.noOp) := by
  constructor
  · intro hlt
    have hact : capacityAction pred desired target =
        if 1 ≤ (desired : ℤ) - requiredTasks pred desired target ∧
            pred < (0.7 : ℚ) * target then
          CapacityAction.scaleDown (requiredTasks pred desired target)
        else CapacityAction.noOp := by
      simp only [capacityAction]
      rw [if_neg (not_lt.mpr hlt.le), if_pos hlt]
    constructor
    · rw [hact]
      by_cases hc : 1 ≤ (desired : ℤ) - requiredTasks pred desired target ∧
          pred < (0.7 : ℚ) * target
      · simp [hc]
      · simp [hc]
    · intro hc
      rw [hact, if_neg hc]
  · intro heq
    simp only [capacityAction]
    rw [if_neg (by rw [heq]; exact lt_irrefl _), if_neg (by rw [heq]; exact lt_irrefl _)]

/-- Witness for C3 at the spec's examples: forecast 20, desired 3,
target 60 scale down to 1; forecast 50, desired 3, target 60 is a
no-op. -/
theorem capacity_scale_down_witness :
    capacityAction 20 3 60 = CapacityAction.scaleDown 1 ∧
      capacityAction 50 3 60 = CapacityAction.noOp := by
  constructor
  · have h := capacity_scale_down 20 3 60 (by norm_num) (by norm_num)
    have hr : requiredTasks (20 : ℚ) 3 (60 : ℚ) = 1 := by
      rw [(capacity_scale_up 20 3 60 (by norm_num) (by norm_num)).1]; norm_num
    have h2 := ((h.1 (by rw [hr]; norm_num)).1).mpr (by rw [hr]; norm_num)
    rwa [hr] at h2
  · have h := capacity_scale_down 50 3 60 (by norm_num) (by norm_num)
    refine h.2 ?_
    rw [(capacity_scale_up 50 3 60 (by norm_num) (by norm_num)).1]
    norm_num; rw [Int.ceil_eq_iff] <;> norm_num

/-- Claim C5: for a non-positive target (including the division-by-zero
case `target = 0`, whose exception the code catches and replaces by
`required := desired`), any non-negative forecast and any desired count
at least 1, the policy takes no action: the desired count is left
unchanged. -/
theorem capacity_fail_safe (pred : ℚ) (desired : ℕ) (target : ℚ)
    (hd : 1 ≤ desired) (ht : target ≤ 0) (hp : 0 ≤ pred) :
    capacityAction pred desired target = CapacityAction.noOp := by
  rcases ht.lt_or_eq with hneg | h0
  · have hne : target ≠ 0 := ne_of_lt hneg
    have hr : requiredTasks pred desired target = 1 := by
      simp only [requiredTasks, requiredCompute, if_neg hne]
      have hnum : 0 ≤ pred * (desired : ℚ) := mul_nonneg hp (Nat.cast_nonneg _)
      have hdiv : pred * (desired : ℚ) / target ≤ 0 :=
        div_nonpos_of_nonneg_of_nonpos hnum hneg.le
      have hceil : ⌈pred * (desired : ℚ) / target⌉ ≤ 0 :=
        Int.ceil_le.mpr (by exact_mod_cast hdiv)
      exact max_eq_left (hceil.trans (by norm_num))
    have hd1 : (1 : ℤ) ≤ (desired : ℤ) := by exact_mod_cast hd
    simp only [capacityAction, hr]
    rw [if_neg (not_lt.mpr hd1)]
    by_cases hlt : (1 : ℤ) < (desired : ℤ)
    · rw [if_pos hlt, if_neg]
      rintro ⟨-, hpred⟩
      have hneg7 : (0.7 : ℚ) * target < 0 :=
        mul_neg_of_pos_of_neg (by norm_num) hneg
      linarith
    · rw [if_neg hlt]
  · subst h0
    have hr : requiredTasks pred desired 0 = (desired : ℤ) := by
      simp [requiredTasks, requiredCompute]
    simp only [capacityAction, hr]
    rw [if_neg (lt_irrefl _), if_neg (lt_irrefl _)]

/-- Witness for C5 at `target = 0` (the division-by-zero case) and at a
negative target. -/
theorem capacity_fail_safe_witness :
    capacityAction 10 2 0 = CapacityAction.noOp ∧
      capacityAction 10 3 (-60) = CapacityAction.noOp :=
  ⟨capacity_fail_safe 10 2 0 (by norm_num) (by norm_num) (by norm_num),
   capacity_fail_safe 10 3 (-60) (by norm_num) (by norm_num) (by norm_num)⟩

/-- A non-empty list has `isEmpty = false`. -/
theorem isEmpty_false_of_ne_nil {α : Type} {l : List α} (h : l ≠ []) :
    l.isEmpty = false := by
  cases l with
  | nil => exact absurd rfl h
  | cons a t => rfl

/-- The stopped-churn threshold at 5 known tasks is `1`. -/
theorem healThreshold_five : healThreshold 5 = 1 := by
  unfold healThreshold
  norm_num

/-- The stopped-churn threshold at 10 known tasks is `2`. -/
theorem healThreshold_ten : healThreshold 10 = 2 := by
  unfold healThreshold
  norm_num

/-- Claim C4: with the collaborator calls succeeding, `heal_if_needed`
forces a redeployment exactly when `running < desired` or the stopped
count reaches `max(1, ceil(0.2 * max(1, totalKnownTasks)))`; the three
example states behave as the spec says. -/
theorem heal_trigger_iff :
    (∀ e : Env, e.healDescribeFails = false → e.healListFails = false →
      e.healDescribeTasksFails = false → e.forceDeployFails = false →
      (heal_if_needed e = Except.ok true ↔
        (e.running < e.desired ∨
          max 1 ⌈(0.2 : ℚ) * ((max 1 e.tasks.length : ℕ) : ℚ)⌉ ≤ (stoppedCount e.tasks : ℤ)))) ∧
    healCondition 4 2 1 5 = true ∧
    healCondition 4 4 3 10 = true ∧
    healCondition 4 4 1 10 = false := by
  refine ⟨?_, ?_, ?_, ?_⟩
  · intro e h1 h2 h3 h4
    have hcond : healCondition e.desired e.running (stoppedCount e.tasks) e.tasks.length = true ↔
        (e.running < e.desired ∨
          max 1 ⌈(0.2 : ℚ) * ((max 1 e.tasks.length : ℕ) : ℚ)⌉ ≤ (stoppedCount e.tasks : ℤ)) := by
      simp [healCondition, healThreshold]
    have hs : heal_if_needed e =
        if healCondition e.desired e.running (stoppedCount e.tasks) e.tasks.length then
          Except.ok true
        else Except.ok false := by
      simp [heal_if_needed, h1, h2, h3, h4]
    rw [hs]
    by_cases hc : healCondition e.desired e.running (stoppedCount e.tasks) e.tasks.length = true
    · rw [if_pos hc]
      exact iff_of_true rfl (hcond.mp hc)
    · rw [if_neg hc]
      exact iff_of_false (by simp) (fun hr => hc (hcond.mpr hr))
  · unfold healCondition
    rw [healThreshold_five]
    decide
  · unfold healCondition
    rw [healThreshold_ten]
    decide
  · unfold healCondition
    rw [healThreshold_ten]
    decide

/-- A service state matching the spec's first example: desired 4,
running 2, five known tasks of which one stopped, all calls healthy. -/
def envC4 : Env :=
  { fetchFails := false, seriesRaw := [], nAhead := 1, target := 60,
    describeFails := false, desired := 4, running := 2,
    scaleUpdateFails := false, notifyFails := false,
    healDescribeFails := false, healListFails := false,
    tasks := [⟨"STOPPED"⟩, ⟨"RUNNING"⟩, ⟨"RUNNING"⟩, ⟨"RUNNING"⟩, ⟨"RUNNING"⟩],
    healDescribeTasksFails := false, forceDeployFails := false }

/-- Witness for C4: the under-provisioned example state forces a
redeployment. -/
theorem heal_trigger_iff_witness : heal_if_needed envC4 = Except.ok true :=
  (heal_trigger_iff.1 envC4 rfl rfl rfl rfl).mpr (Or.inl (by norm_num [envC4]))

/-- An invocation in which every collaborator call succeeds except the
`describe_service` call of line 171, which raises. -/
def envC6 : Env :=
  { fetchFails := false, seriesRaw := [50], nAhead := 1, target := 60,
    describeFails := true, desired := 2, running := 2,
    scaleUpdateFails := false, notifyFails := false,
    healDescribeFails := false, healListFails := false,
    tasks := [], healDescribeTasksFails := false, forceDeployFails := false }

/-- Counterexample to C6 as stated: when the `describe_service` call
fails, `lambda_handler` has no handler for it and the exception
propagates instead of a structured result being returned; the heal step
never runs either. -/
theorem handler_propagates_describe_failure :
    (lambda_handler envC6).1 = Except.error () ∧
      Step.healCheck ∉ (lambda_handler envC6).2 := by
  constructor
  · rfl
  · intro h
    simp [lambda_handler, envC6, fetchedSeries] at h

/-- Claim C6 amended: when the service-describe and task list/describe
calls succeed, the remaining collaborator outcomes (metric fetch, scale
update, forced redeploy, notification) cannot prevent the handler from
returning a structured result, and whenever a series was fetched the
health-check step runs — in particular after a failed scale update. -/
theorem handler_reports_despite_failures (e : Env)
    (h1 : e.describeFails = false) (h2 : e.healDescribeFails = false)
    (h3 : e.healListFails = false) (h4 : e.healDescribeTasksFails = false) :
    (∃ res, (lambda_handler e).1 = Except.ok res) ∧
      (fetchedSeries e ≠ [] → Step.healCheck ∈ (lambda_handler e).2) := by
  have hheal : ∃ b, heal_if_needed e = Except.ok b := by
    simp only [heal_if_needed, h2, h3, h4, Bool.and_false]
    by_cases hc : healCondition e.desired e.running (stoppedCount e.tasks) e.tasks.length = true
    · by_cases hf : e.forceDeployFails = true
      · exact ⟨false, by simp [hc, hf]⟩
      · exact ⟨true, by simp [hc, hf]⟩
    · exact ⟨false, by simp [hc]⟩
  obtain ⟨b, hb⟩ := hheal
  by_cases hs : fetchedSeries e = []
  · refine ⟨⟨HandlerResult.noData, ?_⟩, fun hne => absurd hs hne⟩
    simp [lambda_handler, hs]
  · have hne : (fetchedSeries e).isEmpty = false := isEmpty_false_of_ne_nil hs
    refine ⟨?_, fun _ => ?_⟩
    · refine ⟨HandlerResult.ok
        (double_exponential_smoothing (fetchedSeries e) (0.5 : ℚ) (0.3 : ℚ) e.nAhead)
        e.desired
        (requiredTasks
          (double_exponential_smoothing (fetchedSeries e) (0.5 : ℚ) (0.3 : ℚ) e.nAhead)
          e.desired e.target) b, ?_⟩
      cases hact : capacityAction
          (double_exponential_smoothing (fetchedSeries e) (0.5 : ℚ) (0.3 : ℚ) e.nAhead)
          e.desired e.target <;>
        simp [lambda_handler, hne, h1, hb, hact]
    · cases hact : capacityAction
          (double_exponential_smoothing (fetchedSeries e) (0.5 : ℚ) (0.3 : ℚ) e.nAhead)
          e.desired e.target <;>
        simp [lambda_handler, hne, h1, hb, hact]

/-- An invocation in which the scale update, the forced redeploy and the
notification all fail, while the uncaught calls succeed. The series
forecasts 100 per unit against a target of 60 for one desired unit, so a
scale-up is attempted. -/
def envC6ok : Env :=
  { fetchFails := false, seriesRaw := [100, 100], nAhead := 5, target := 60,
    describeFails := false, desired := 1, running := 1,
    scaleUpdateFails := true, notifyFails := true,
    healDescribeFails := false, healListFails := false,
    tasks := [], healDescribeTasksFails := false, forceDeployFails := true }

/-- Witness for the amended C6: despite the failing scale update,
redeploy and notification, the handler returns a structured result and
runs the health check. -/
theorem handler_reports_despite_failures_witness :
    (∃ res, (lambda_handler envC6ok).1 = Except.ok res) ∧
      Step.healCheck ∈ (lambda_handler envC6ok).2 := by
  have h := handler_reports_despite_failures envC6ok rfl rfl rfl rfl
  exact ⟨h.1, h.2 (by simp [fetchedSeries, envC6ok])⟩

/-- Claim C7: an empty fetched series terminates the cycle with the
distinct `no_data` status: no forecast, no capacity decision or scale
call, no heal step, and the result never carries a (zero or other)
forecast value. -/
theorem no_data_short_circuit (e : Env) (hs : fetchedSeries e = []) :
    (lambda_handler e).1 = Except.ok HandlerResult.noData ∧
      (∀ p d r hl, (lambda_handler e).1 ≠ Except.ok (HandlerResult.ok p d r hl)) ∧
      Step.forecastStep ∉ (lambda_handler e).2 ∧
      (∀ n, Step.scaleCall n ∉ (lambda_handler e).2) ∧
      Step.healCheck ∉ (lambda_handler e).2 := by
  have hlam : lambda_handler e = (Except.ok HandlerResult.noData,
      [Step.fetchMetrics, Step.notifyStep]) := by
    simp [lambda_handler, hs]
  rw [hlam]
  refine ⟨rfl, ?_, by simp, ?_, by simp⟩
  · intro p d r hl
    simp
  · intro n
    simp

/-- An invocation whose CloudWatch fetch fails; `fetch_cw_metric`
swallows the error and hands the handler an empty series. -/
def envC7 : Env :=
  { fetchFails := true, seriesRaw := [5], nAhead := 1, target := 60,
    describeFails := false, desired := 2, running := 2,
    scaleUpdateFails := false, notifyFails := false,
    healDescribeFails := false, healListFails := false,
    tasks := [], healDescribeTasksFails := false, forceDeployFails := false }

/-- Witness for C7 at a concrete invocation with no datapoints. -/
theorem no_data_short_circuit_witness :
    (lambda_handler envC7).1 = Except.ok HandlerResult.noData ∧
      Step.forecastStep ∉ (lambda_handler envC7).2 ∧
      Step.healCheck ∉ (lambda_handler envC7).2 := by
  obtain ⟨h1, -, h3, -, h5⟩ := no_data_short_circuit envC7 rfl
  exact ⟨h1, h3, h5⟩

/-- With `desired = 0` and a positive target, `required` is
`max(1, ceil(0)) = 1 > 0`, so the policy scales up to 1 whatever the
forecast. -/
theorem capacityAction_desired_zero (pred target : ℚ) (ht : 0 < target) :
    capacityAction pred 0 target = CapacityAction.scaleUp 1 := by
  have hne : target ≠ 0 := ne_of_gt ht
  have hr : requiredTasks pred 0 target = 1 := by
    simp [requiredTasks, requiredCompute, hne]
  simp [capacityAction, hr]

/-- Claim C10: when the service snapshot reports `desiredCount = 0`, the
series is non-empty and the target is positive, the cycle always issues
a scale-up call to 1 — the capacity action is `ScaleUp 1` for every
forecast value, zero included. -/
theorem scale_up_from_zero_desired (e : Env)
    (h0 : e.desired = 0) (ht : 0 < e.target)
    (hs : fetchedSeries e ≠ []) (hd : e.describeFails = false) :
    Step.scaleCall 1 ∈ (lambda_handler e).2 ∧
      (∀ pred : ℚ, capacityAction pred e.desired e.target = CapacityAction.scaleUp 1) := by
  have hcap : ∀ pred : ℚ, capacityAction pred e.desired e.target = CapacityAction.scaleUp 1 := by
    intro pred
    rw [h0]
    exact capacityAction_desired_zero pred e.target ht
  refine ⟨?_, hcap⟩
  have hne : (fetchedSeries e).isEmpty = false := isEmpty_false_of_ne_nil hs
  cases hh : heal_if_needed e <;>
    simp [lambda_handler, hne, hd, hcap, hh]

/-- An invocation observing a service scaled to zero, with a constant
zero metric series (so the forecast itself is zero). -/
def envC10 : Env :=
  { fetchFails := false, seriesRaw := [0, 0], nAhead := 1, target := 60,
    describeFails := false, desired := 0, running := 0,
    scaleUpdateFails := false, notifyFails := false,
    healDescribeFails := false, healListFails := false,
    tasks := [], healDescribeTasksFails := false, forceDeployFails := false }

/-- Witness for C10: on the all-zero series (forecast 0) and a service
at `desired = 0`, the cycle issues a scale-up call to 1. -/
theorem scale_up_from_zero_desired_witness :
    double_exponential_smoothing (fetchedSeries envC10) (0.5 : ℚ) (0.3 : ℚ) envC10.nAhead = 0 ∧
      Step.scaleCall 1 ∈ (lambda_handler envC10).2 := by
  constructor
  · norm_num [fetchedSeries, envC10, double_exponential_smoothing, smoothStep]
  · exact (scale_up_from_zero_desired envC10 rfl (by norm_num [envC10])
      (by simp [fetchedSeries, envC10]) rfl).1

end LambdaAgent
